import Mathlib

/-!
Shallow embedding of `src/generalpy/signal.py` (class `Signal`) and proofs
of its connect / disconnect / emit contract.

Modelling choices:
* A Python callable is modelled by `PyCallable α`: an identity of type `α`,
  `truthy` — the result of Python's `bool(callback)` — and `hasName` —
  whether the attribute access `callback.__name__` succeeds. A plain Python
  function is truthy and has `__name__`; an invocable object may lack either.
* Every method of `Signal` interpolates `callback.__name__` into an
  f-string for its debug log or error message (lines 71, 81, 83, 84 and 107
  of the source). F-strings are evaluated eagerly, so on a callable without
  `__name__` these lines raise `AttributeError` at that exact point; the
  embedding keeps each such access at its position in the control flow.
* Python tuples of arguments become `List β`; Python dicts of keyword
  arguments become association lists `List (String × β)` whose mapping is
  read with `dictGet` (first occurrence wins, as in a dict with unique keys).
  The dict merge `\x7b**a, **b\x7d` is modelled by `dictMerge`, which replays
  each entry of `b` into `a` with `dictInsert` (update in place when the key
  is present, append otherwise), exactly Python's construction order.
* Each operation returns the post-state of the signal object paired with
  its outcome, because a raised exception does not undo earlier field writes:
  `connect` stores the binding and then logs (the log may raise), so it
  returns `Signal × Option PyError`; likewise `disconnect`. `emit` returns
  the (unchanged) signal with `Except PyError (Option Invocation)`: the
  call it performs, if any, or the error it raises.
* `PyError.valueError` is the `ValueError` of `disconnect` (the spec's
  `InvalidOperation` kind); `PyError.attributeError` is the `AttributeError`
  from a failed `__name__` access.
-/

/-- A Python callable: its identity, the result of `bool(...)` on it
(`truthy` is what `if self._callback:` tests after the `None` check), and
whether the attribute access `.__name__` succeeds. -/
structure PyCallable (α : Type) where
  id : α
  truthy : Bool
  hasName : Bool
  deriving DecidableEq, Repr

/-- The error kinds of the module: the `ValueError` raised by
`Signal.disconnect` (the spec calls this kind `InvalidOperation`), and the
`AttributeError` raised by evaluating `callback.__name__` in an f-string
when the callable has no `__name__` attribute. -/
inductive PyError where
  | valueError : String → PyError
  | attributeError : String → PyError
  deriving DecidableEq, Repr

/-- Read a key from an association-list dict: first occurrence wins. -/
def dictGet {β : Type} (d : List (String × β)) (k : String) : Option β :=
  match d with
  | [] => none
  | p :: rest => if p.1 = k then some p.2 else dictGet rest k

/-- Whether the dict holds the key. -/
def hasKey {β : Type} (d : List (String × β)) (k : String) : Bool :=
  d.any (fun p => p.1 = k)

/-- Python's `d[k] = v` on a dict: update the value in place when the key is
present, append the new entry otherwise. -/
def dictInsert {β : Type} (d : List (String × β)) (k : String) (v : β) :
    List (String × β) :=
  if hasKey d k then d.map (fun p => if p.1 = k then (k, v) else p)
  else d ++ [(k, v)]

/-- Python's `\x7b**a, **b\x7d`: start from `a` and write every entry of `b`
into it, so `b` wins on key collision and keeps `a`'s key order otherwise. -/
def dictMerge {β : Type} (a b : List (String × β)) : List (String × β) :=
  b.foldl (fun d p => dictInsert d p.1 p.2) a

/-- The `Signal` class of `signal.py`: configuration fields from `__init__`
plus the mutable binding `_callback` / `cb_args` / `cb_kwargs`.
The `logger` is omitted: it only receives diagnostic messages (but the
argument *expressions* of its calls are still evaluated, see the methods). -/
structure Signal (α β : Type) where
  name : String
  threaded : Bool
  daemon : Bool
  _callback : Option (PyCallable α)
  cb_args : List β
  cb_kwargs : List (String × β)
  deriving DecidableEq, Repr

/-- `Signal._set_default_values`: clear the binding. -/
def Signal._set_default_values {α β : Type} (s : Signal α β) : Signal α β :=
  { s with _callback := none, cb_args := [], cb_kwargs := [] }

/-- `Signal.__init__`: store the configuration, then set the default values. -/
def Signal.init {α β : Type} (name : String) (threaded : Bool) (daemon : Bool) :
    Signal α β :=
  Signal._set_default_values
    { name := name, threaded := threaded, daemon := daemon,
      _callback := none, cb_args := [], cb_kwargs := [] }

/-- `Signal.connect`: store `callback`, `args`, `kwargs` (lines 68 to 70),
overwriting any prior binding; then the debug log's f-string evaluates
`callback.__name__` (line 71), raising `AttributeError` — with the binding
already stored — when the callable has no `__name__`. -/
def Signal.connect {α β : Type} (s : Signal α β) (callback : PyCallable α)
    (args : List β) (kwargs : List (String × β)) :
    Signal α β × Option PyError :=
  let s' := { s with _callback := some callback, cb_args := args, cb_kwargs := kwargs }
  if callback.hasName then (s', none)
  else (s', some (PyError.attributeError "has no attribute __name__"))

/-- `Signal.disconnect`: on `self._callback != callback`, either log and
return (line 81, `ignoreError` set) or raise `ValueError` (line 83) — both
f-strings evaluate `callback.__name__` first, raising `AttributeError`
instead when it is missing. On match, the removal log's f-string (line 84)
also evaluates `callback.__name__` *before* `_set_default_values()` on line
85, so an unnamed callback is never cleared. -/
def Signal.disconnect {α β : Type} [DecidableEq α] (s : Signal α β)
    (callback : PyCallable α) (ignoreError : Bool) :
    Signal α β × Option PyError :=
  if s._callback ≠ some callback then
    if ignoreError then
      if callback.hasName then (s, none)
      else (s, some (PyError.attributeError "has no attribute __name__"))
    else
      if callback.hasName then
        (s, some (PyError.valueError "is not connected to signal"))
      else (s, some (PyError.attributeError "has no attribute __name__"))
  else
    if callback.hasName then (Signal._set_default_values s, none)
    else (s, some (PyError.attributeError "has no attribute __name__"))

/-- The call `emit` performs when it reaches the callback: the callback,
its final positional and keyword arguments, and the dispatch mode. -/
structure Invocation (α β : Type) where
  callback : PyCallable α
  args : List β
  kwargs : List (String × β)
  threaded : Bool
  daemon : Bool
  deriving DecidableEq, Repr

/-- `Signal.emit`: compute `_threaded` (argument when set, else the signal's
default, line 97), `_args = self.cb_args + args`, `_kwargs =
\x7b**self.cb_kwargs, **kwargs\x7d`; then, when `if self._callback:` succeeds
(bound AND truthy): in the threaded branch the thread-name f-string
evaluates `self._callback.__name__` (line 107) before anything runs, raising
`AttributeError` when it is missing; otherwise the call is performed,
threaded or synchronous per `_threaded`. The signal is returned unchanged
together with the outcome. -/
def Signal.emit {α β : Type} (s : Signal α β) (threaded : Option Bool)
    (args : List β) (kwargs : List (String × β)) :
    Signal α β × Except PyError (Option (Invocation α β)) :=
  let _threaded := match threaded with
    | none => s.threaded
    | some b => b
  let _args := s.cb_args ++ args
  let _kwargs := dictMerge s.cb_kwargs kwargs
  match s._callback with
  | some c =>
      if c.truthy then
        if _threaded then
          if c.hasName then
            (s, Except.ok (some { callback := c, args := _args,
                                  kwargs := _kwargs, threaded := _threaded,
                                  daemon := s.daemon }))
          else
            (s, Except.error (PyError.attributeError "has no attribute __name__"))
        else
          (s, Except.ok (some { callback := c, args := _args,
                                kwargs := _kwargs, threaded := _threaded,
                                daemon := s.daemon }))
      else (s, Except.ok none)
  | none => (s, Except.ok none)

/-- Reachable signal states: freshly constructed, or the post-state of a
`connect`, `disconnect` or `emit` call on a reachable state — including the
post-states of calls that raised, since an exception does not undo the
field writes made before it. -/
inductive Signal.Reachable {α β : Type} [DecidableEq α] : Signal α β → Prop where
  | init (name : String) (threaded daemon : Bool) :
      Signal.Reachable (Signal.init name threaded daemon)
  | connect {s : Signal α β} (c : PyCallable α) (a : List β)
      (k : List (String × β)) (h : Signal.Reachable s) :
      Signal.Reachable (s.connect c a k).1
  | disconnect {s : Signal α β} (c : PyCallable α) (ig : Bool)
      (h : Signal.Reachable s) :
      Signal.Reachable (s.disconnect c ig).1
  | emit {s : Signal α β} (t : Option Bool) (a : List β)
      (k : List (String × β)) (h : Signal.Reachable s) :
      Signal.Reachable (s.emit t a k).1

lemma dictGet_append {β : Type} (d e : List (String × β)) (k : String) :
    dictGet (d ++ e) k = (dictGet d k).or (dictGet e k) := by
  induction d with
  | nil => simp [dictGet, Option.or]
  | cons p rest ih =>
      by_cases h : p.1 = k <;> simp [dictGet, h, ih, Option.or]

lemma dictGet_eq_none_of_not_hasKey {β : Type} (d : List (String × β))
    (k : String) (h : hasKey d k = false) : dictGet d k = none := by
  induction d with
  | nil => rfl
  | cons p rest ih =>
      simp only [hasKey, List.any_cons, Bool.or_eq_false_iff] at h
      have h1 : p.1 ≠ k := by simpa using h.1
      have h2 : hasKey rest k = false := h.2
      simp [dictGet, h1, ih h2]

lemma dictGet_eq_none_of_not_mem {β : Type} (d : List (String × β))
    (k : String) (h : k ∉ d.map Prod.fst) : dictGet d k = none := by
  induction d with
  | nil => rfl
  | cons p rest ih =>
      simp only [List.map_cons, List.mem_cons] at h
      push_neg at h
      have hp : ¬ p.1 = k := fun hp => h.1 hp.symm
      simp [dictGet, hp, ih h.2]

lemma dictGet_map_update_self {β : Type} (d : List (String × β)) (k : String)
    (v : β) (h : hasKey d k = true) :
    dictGet (d.map (fun p => if p.1 = k then (k, v) else p)) k = some v := by
  induction d with
  | nil => simp [hasKey] at h
  | cons p rest ih =>
      by_cases hp : p.1 = k
      · simp [dictGet, hp]
      · have h' : hasKey rest k = true := by
          simpa [hasKey, hp] using h
        simp [dictGet, hp, ih h']

lemma dictGet_map_update_ne {β : Type} (d : List (String × β)) (k : String)
    (v : β) (k' : String) (hne : k' ≠ k) :
    dictGet (d.map (fun p => if p.1 = k then (k, v) else p)) k' = dictGet d k' := by
  induction d with
  | nil => rfl
  | cons p rest ih =>
      by_cases hp : p.1 = k
      · have h1 : ¬ (k = k') := fun hq => hne hq.symm
        have h2 : ¬ (p.1 = k') := fun hq => h1 (hp ▸ hq)
        simp [dictGet, hp, h1, h2, ih]
      · by_cases hq : p.1 = k' <;> simp [dictGet, hp, hq, hne, ih]

lemma dictGet_dictInsert {β : Type} (d : List (String × β)) (k : String)
    (v : β) (k' : String) :
    dictGet (dictInsert d k v) k' = if k' = k then some v else dictGet d k' := by
  unfold dictInsert
  by_cases h : hasKey d k
  · by_cases hk : k' = k
    · subst hk
      simp [h, dictGet_map_update_self d k' v h]
    · simp [h, hk, dictGet_map_update_ne d k v k' hk]
  · have h' : hasKey d k = false := by simpa using h
    by_cases hk : k' = k
    · subst hk
      simp [h', dictGet_append, dictGet_eq_none_of_not_hasKey d k' h', dictGet, Option.or]
    · have hk2 : ¬ (k = k') := fun hq => hk hq.symm
      simp [h', dictGet_append, dictGet, hk, hk2, Option.or_none]

lemma dictGet_dictMerge {β : Type} (a b : List (String × β)) (k : String)
    (hb : (b.map Prod.fst).Nodup) :
    dictGet (dictMerge a b) k = (dictGet b k).or (dictGet a k) := by
  induction b generalizing a with
  | nil => simp [dictMerge, dictGet, Option.or]
  | cons p rest ih =>
      have hb1 : p.1 ∉ rest.map Prod.fst := (List.nodup_cons.mp (by simpa using hb)).1
      have hb2 : (rest.map Prod.fst).Nodup := (List.nodup_cons.mp (by simpa using hb)).2
      have hstep : dictMerge a (p :: rest) = dictMerge (dictInsert a p.1 p.2) rest := rfl
      rw [hstep, ih _ hb2, dictGet_dictInsert]
      by_cases hk : p.1 = k
      · subst hk
        simp [dictGet, dictGet_eq_none_of_not_mem rest p.1 hb1, Option.or]
      · have hk2 : ¬ (k = p.1) := fun hq => hk hq.symm
        simp [dictGet, hk2, hk, Option.or]

/-- Shared helper: `connect` writes the binding before its log line, so its
post-state is the stored binding whether or not the log raised. -/
lemma Signal.connect_fst {α β : Type} (s : Signal α β) (c : PyCallable α)
    (a : List β) (k : List (String × β)) :
    (s.connect c a k).1
      = { s with _callback := some c, cb_args := a, cb_kwargs := k } := by
  unfold Signal.connect
  split <;> rfl

/-- Shared helper: `emit` returns the signal unchanged in every branch,
including the branch that raises `AttributeError`. -/
lemma Signal.emit_fst {α β : Type} (s : Signal α β) (t : Option Bool)
    (A : List β) (K : List (String × β)) : (s.emit t A K).1 = s := by
  cases hc : s._callback with
  | none => simp [Signal.emit, hc]
  | some c =>
      simp only [Signal.emit, hc]
      split_ifs <;> rfl

/-- Shared helper: any invocation `emit` performs carries the stored
callback (which is truthy), the concatenated positionals, the merged
kwargs, the resolved dispatch mode and the signal's daemon flag. -/
lemma Signal.emit_ok_some {α β : Type} (s : Signal α β) (t : Option Bool)
    (A : List β) (K : List (String × β)) (inv : Invocation α β)
    (h : (s.emit t A K).2 = Except.ok (some inv)) :
    s._callback = some inv.callback ∧ inv.callback.truthy = true
      ∧ inv.args = s.cb_args ++ A
      ∧ inv.kwargs = dictMerge s.cb_kwargs K
      ∧ inv.threaded = t.getD s.threaded
      ∧ inv.daemon = s.daemon := by
  cases hc : s._callback with
  | none => simp [Signal.emit, hc] at h
  | some c =>
      by_cases ht : c.truthy
      · rcases t with _ | b
        · cases hb : s.threaded with
          | false =>
              simp [Signal.emit, hc, ht, hb] at h
              subst h
              exact ⟨rfl, ht, rfl, rfl, rfl, rfl⟩
          | true =>
              by_cases hn : c.hasName
              · simp [Signal.emit, hc, ht, hb, hn] at h
                subst h
                exact ⟨rfl, ht, rfl, rfl, rfl, rfl⟩
              · simp [Signal.emit, hc, ht, hb, hn] at h
        · cases b with
          | false =>
              simp [Signal.emit, hc, ht] at h
              subst h
              exact ⟨rfl, ht, rfl, rfl, rfl, rfl⟩
          | true =>
              by_cases hn : c.hasName
              · simp [Signal.emit, hc, ht, hn] at h
                subst h
                exact ⟨rfl, ht, rfl, rfl, rfl, rfl⟩
              · simp [Signal.emit, hc, ht, hn] at h
      · simp [Signal.emit, hc, ht] at h

/-- Claim C1, counterexamples to the universal statement. First: a Signal
whose connected callback is a falsy invocable (its `bool(...)` is `False`):
the binding is present yet `emit` performs no call at all. Second: a truthy
invocable without `__name__`: a threaded emit raises `AttributeError` at
the thread-name f-string and never invokes it. -/
theorem C1_counterexample :
    ((((Signal.init "Signal" false false : Signal String Int).connect
        ⟨"falsy_cb", false, true⟩ [1, 2] [("x", 10)]).1._callback
      = some ⟨"falsy_cb", false, true⟩)
    ∧ ((((Signal.init "Signal" false false : Signal String Int).connect
        ⟨"falsy_cb", false, true⟩ [1, 2] [("x", 10)]).1.emit
        (some false) [3] [("x", 20), ("y", 30)]).2 = Except.ok none))
    ∧ ((((Signal.init "Signal" false false : Signal String Int).connect
        ⟨"unnamed_cb", true, false⟩ [1, 2] [("x", 10)]).1._callback
      = some ⟨"unnamed_cb", true, false⟩)
    ∧ ((((Signal.init "Signal" false false : Signal String Int).connect
        ⟨"unnamed_cb", true, false⟩ [1, 2] [("x", 10)]).1.emit
        (some true) [3] [("x", 20), ("y", 30)]).2
      = Except.error (PyError.attributeError "has no attribute __name__"))) :=
  ⟨⟨rfl, rfl⟩, ⟨rfl, rfl⟩⟩

/-- Claim C1 (amended): for every Signal whose connected callback is truthy,
whenever the dispatch is synchronous or the callback has a `__name__`
attribute (every plain Python function is truthy and named), `emit` with
positional arguments `A` and keyword arguments `K` (a dict, so its keys are
distinct) invokes that callback with positionals `cb_args ++ A` and a
keyword dict that maps each key to `K`'s value when `K` has the key, else
to the connect-time value. -/
theorem C1_emit_argument_merging {α β : Type} (s : Signal α β)
    (c : PyCallable α) (t : Option Bool) (A : List β)
    (K : List (String × β)) (hc : s._callback = some c)
    (ht : c.truthy = true) (hK : (K.map Prod.fst).Nodup)
    (hd : c.hasName = true ∨ t.getD s.threaded = false) :
    ∃ inv : Invocation α β, (s.emit t A K).2 = Except.ok (some inv)
      ∧ inv.callback = c
      ∧ inv.args = s.cb_args ++ A
      ∧ ∀ k : String,
          dictGet inv.kwargs k = (dictGet K k).or (dictGet s.cb_kwargs k) := by
  have hmerge : ∀ k : String,
      dictGet (dictMerge s.cb_kwargs K) k
        = (dictGet K k).or (dictGet s.cb_kwargs k) :=
    fun k => dictGet_dictMerge s.cb_kwargs K k hK
  rcases t with _ | b
  · cases hb : s.threaded with
    | false =>
        refine ⟨⟨c, s.cb_args ++ A, dictMerge s.cb_kwargs K, s.threaded,
                 s.daemon⟩, ?_, rfl, rfl, hmerge⟩
        simp [Signal.emit, hc, ht, hb]
    | true =>
        have hn : c.hasName = true := by
          rcases hd with hn | hf
          · exact hn
          · simp [Option.getD, hb] at hf
        refine ⟨⟨c, s.cb_args ++ A, dictMerge s.cb_kwargs K, s.threaded,
                 s.daemon⟩, ?_, rfl, rfl, hmerge⟩
        simp [Signal.emit, hc, ht, hb, hn]
  · cases b with
    | false =>
        refine ⟨⟨c, s.cb_args ++ A, dictMerge s.cb_kwargs K, false,
                 s.daemon⟩, ?_, rfl, rfl, hmerge⟩
        simp [Signal.emit, hc, ht]
    | true =>
        have hn : c.hasName = true := by
          rcases hd with hn | hf
          · exact hn
          · simp [Option.getD] at hf
        refine ⟨⟨c, s.cb_args ++ A, dictMerge s.cb_kwargs K, true,
                 s.daemon⟩, ?_, rfl, rfl, hmerge⟩
        simp [Signal.emit, hc, ht, hn]

/-- Claim C1 witness: the spec's own example, `connect(cb, 1, 2, x=10)` then
`emit(False, 3, x=20, y=30)` with `cb` a plain (truthy, named) function:
the callback runs with positionals `(1, 2, 3)` and a keyword dict giving
`x = 20` and `y = 30`. -/
theorem C1_witness :
    ∃ inv : Invocation String Int,
      (((((Signal.init "Signal" false false : Signal String Int).connect
          ⟨"cb", true, true⟩ [1, 2] [("x", 10)]).1).emit
          (some false) [3] [("x", 20), ("y", 30)]).2 = Except.ok (some inv))
      ∧ inv.callback = ⟨"cb", true, true⟩
      ∧ inv.args = [1, 2, 3]
      ∧ ∀ k : String, dictGet inv.kwargs k
          = (dictGet [("x", 20), ("y", 30)] k).or (dictGet [("x", 10)] k) :=
  C1_emit_argument_merging _ ⟨"cb", true, true⟩ (some false) [3]
    [("x", 20), ("y", 30)] rfl rfl (by decide) (Or.inr rfl)

/-- Claim C2, counterexample: the claim quantifies over every callback, but
for a callback without `__name__` (such as a `functools` partial object)
the mismatch path raises `AttributeError` — not the InvalidOperation-class
`ValueError` — and with `ignore_error` set it raises instead of returning
without effect. -/
theorem C2_counterexample :
    (((Signal.init "Signal" false false : Signal String Int).disconnect
        ⟨"unnamed_cb", true, false⟩ true).2
      = some (PyError.attributeError "has no attribute __name__"))
    ∧ (((Signal.init "Signal" false false : Signal String Int).disconnect
        ⟨"unnamed_cb", true, false⟩ false).2
      = some (PyError.attributeError "has no attribute __name__")) :=
  ⟨rfl, rfl⟩

/-- Claim C2 (amended): for every callback `c` that has a `__name__`
attribute (as every plain Python function does), when the currently
connected callback is not `c` — whether another callback or none is bound —
`disconnect` raises the `ValueError` (the spec's `InvalidOperation` kind),
unless `ignoreError` is true, in which case it returns with the whole
binding unchanged; in both cases the state is untouched. -/
theorem C2_disconnect_mismatch {α β : Type} [DecidableEq α] (s : Signal α β)
    (c : PyCallable α) (h : s._callback ≠ some c) (hn : c.hasName = true) :
    (∃ m : String, s.disconnect c false = (s, some (PyError.valueError m)))
    ∧ s.disconnect c true = (s, none) := by
  constructor
  · exact ⟨"is not connected to signal", by simp [Signal.disconnect, h, hn]⟩
  · simp [Signal.disconnect, h, hn]

/-- Claim C2 witness: a freshly constructed Signal (no callback bound) and
a named callback: disconnecting errors with the `ValueError`, and with
`ignoreError` it returns the state untouched. -/
theorem C2_witness :
    ((Signal.init "Signal" false false : Signal String Int)._callback
        ≠ some ⟨"c", true, true⟩)
    ∧ (∃ m : String,
        (Signal.init "Signal" false false : Signal String Int).disconnect
          ⟨"c", true, true⟩ false
        = (Signal.init "Signal" false false, some (PyError.valueError m)))
    ∧ ((Signal.init "Signal" false false : Signal String Int).disconnect
          ⟨"c", true, true⟩ true
        = (Signal.init "Signal" false false, none)) :=
  ⟨by decide, C2_disconnect_mismatch _ ⟨"c", true, true⟩ (by decide) rfl⟩

/-- Claim C3, counterexample: the removal log on line 84 evaluates
`callback.__name__` before `_set_default_values()` on line 85, so
disconnecting a bound callback that lacks `__name__` (such a state is
reachable: `connect` stores the binding before its own log raises) raises
`AttributeError` and never clears the binding. -/
theorem C3_counterexample :
    (((((Signal.init "Signal" false false : Signal String Int).connect
        ⟨"unnamed_cb", true, false⟩ [1] [("x", 1)]).1).disconnect
        ⟨"unnamed_cb", true, false⟩ false).2
      = some (PyError.attributeError "has no attribute __name__"))
    ∧ (((((Signal.init "Signal" false false : Signal String Int).connect
        ⟨"unnamed_cb", true, false⟩ [1] [("x", 1)]).1).disconnect
        ⟨"unnamed_cb", true, false⟩ false).1._callback
      = some ⟨"unnamed_cb", true, false⟩) :=
  ⟨rfl, rfl⟩

/-- Claim C3 (amended): when the connected callback is exactly the one
passed and it has a `__name__` attribute (as every plain Python function
does), `disconnect` succeeds and clears the binding — callback none, bound
args the empty tuple, bound kwargs the empty dict — and every subsequent
`emit` is a no-op until a new callback is connected. -/
theorem C3_disconnect_match_clears {α β : Type} [DecidableEq α]
    (s : Signal α β) (c : PyCallable α) (ig : Bool)
    (h : s._callback = some c) (hn : c.hasName = true) :
    ∃ s' : Signal α β, s.disconnect c ig = (s', none)
      ∧ s'._callback = none ∧ s'.cb_args = [] ∧ s'.cb_kwargs = []
      ∧ ∀ (t : Option Bool) (A : List β) (K : List (String × β)),
          s'.emit t A K = (s', Except.ok none) := by
  refine ⟨Signal._set_default_values s, ?_, rfl, rfl, rfl, ?_⟩
  · simp [Signal.disconnect, h, hn]
  · intro t A K
    simp [Signal.emit, Signal._set_default_values]

/-- Claim C3 witness: connect a plain callback with bound arguments,
disconnect the same callback: the binding is fully cleared and emits do
nothing. -/
theorem C3_witness :
    ∃ s' : Signal String Int,
      (((Signal.init "Signal" false false : Signal String Int).connect
          ⟨"c", true, true⟩ [1] [("x", 5)]).1).disconnect ⟨"c", true, true⟩ false
        = (s', none)
      ∧ s'._callback = none ∧ s'.cb_args = [] ∧ s'.cb_kwargs = []
      ∧ ∀ (t : Option Bool) (A : List Int) (K : List (String × Int)),
          s'.emit t A K = (s', Except.ok none) :=
  C3_disconnect_match_clears _ ⟨"c", true, true⟩ false rfl rfl

/-- Claim C4: connecting c1 and then c2 leaves exactly c2 bound together
with c2's args and kwargs (silent, complete replacement — connect's writes
precede its log line, so this holds even for unnamed callbacks), and any
call an emit then performs runs c2, never c1. At-most-one callback is
structural: the binding is a single optional field. -/
theorem C4_connect_replaces {α β : Type} (s : Signal α β)
    (c1 c2 : PyCallable α) (a1 a2 : List β) (k1 k2 : List (String × β)) :
    (((s.connect c1 a1 k1).1.connect c2 a2 k2).1._callback = some c2)
    ∧ (((s.connect c1 a1 k1).1.connect c2 a2 k2).1.cb_args = a2)
    ∧ (((s.connect c1 a1 k1).1.connect c2 a2 k2).1.cb_kwargs = k2)
    ∧ ∀ (t : Option Bool) (A : List β) (K : List (String × β))
        (inv : Invocation α β),
        ((((s.connect c1 a1 k1).1.connect c2 a2 k2).1.emit t A K).2
            = Except.ok (some inv)) →
        inv.callback = c2 := by
  have h2 := Signal.connect_fst (s.connect c1 a1 k1).1 c2 a2 k2
  refine ⟨by rw [h2], by rw [h2], by rw [h2], ?_⟩
  intro t A K inv hinv
  obtain ⟨hcb, -, -, -, -, -⟩ := Signal.emit_ok_some _ t A K inv hinv
  rw [h2] at hcb
  have hcb' : some c2 = some inv.callback := hcb
  exact (Option.some_inj.mp hcb').symm

/-- Claim C4 witness: after connecting c1 then c2, only c2 is bound with
its own arguments, and any invocation a subsequent emit performs runs c2. -/
theorem C4_witness :
    ((((Signal.init "Signal" false false : Signal String Int).connect
        ⟨"c1", true, true⟩ [1] [("a", 1)]).1.connect
        ⟨"c2", true, true⟩ [2] [("b", 2)]).1._callback = some ⟨"c2", true, true⟩)
    ∧ ((((Signal.init "Signal" false false : Signal String Int).connect
        ⟨"c1", true, true⟩ [1] [("a", 1)]).1.connect
        ⟨"c2", true, true⟩ [2] [("b", 2)]).1.cb_args = [2])
    ∧ ((((Signal.init "Signal" false false : Signal String Int).connect
        ⟨"c1", true, true⟩ [1] [("a", 1)]).1.connect
        ⟨"c2", true, true⟩ [2] [("b", 2)]).1.cb_kwargs = [("b", 2)])
    ∧ ∀ (t : Option Bool) (A : List Int) (K : List (String × Int))
        (inv : Invocation String Int),
        (((((Signal.init "Signal" false false : Signal String Int).connect
            ⟨"c1", true, true⟩ [1] [("a", 1)]).1.connect
            ⟨"c2", true, true⟩ [2] [("b", 2)]).1.emit t A K).2
          = Except.ok (some inv)) →
        inv.callback = ⟨"c2", true, true⟩ :=
  C4_connect_replaces _ ⟨"c1", true, true⟩ ⟨"c2", true, true⟩
    [1] [2] [("a", 1)] [("b", 2)]

/-- Claim C5: with no callback connected, `emit` — any threaded flag, any
args and kwargs — performs no call, raises nothing, and leaves the state
unchanged. -/
theorem C5_emit_no_callback_noop {α β : Type} (s : Signal α β)
    (t : Option Bool) (A : List β) (K : List (String × β))
    (h : s._callback = none) : s.emit t A K = (s, Except.ok none) := by
  simp [Signal.emit, h]

/-- Claim C5 witness: emitting on a freshly constructed Signal with a
threaded override and arguments does nothing. -/
theorem C5_witness :
    ((Signal.init "Signal" true true : Signal String Int)._callback = none)
    ∧ (Signal.init "Signal" true true : Signal String Int).emit
        (some true) [7] [("x", 1)]
      = (Signal.init "Signal" true true, Except.ok none) :=
  ⟨rfl, C5_emit_no_callback_noop _ (some true) [7] [("x", 1)] rfl⟩

/-- Claim C6: `emit` never changes the Signal's state — for any threaded
flag, args and kwargs, and on the raising path as well, the stored
callback, bound args and bound kwargs (indeed the whole state) are the same
after the call as before it. -/
theorem C6_emit_preserves_state {α β : Type} (s : Signal α β)
    (t : Option Bool) (A : List β) (K : List (String × β)) :
    (s.emit t A K).1 = s :=
  Signal.emit_fst s t A K

/-- Claim C7: whenever `emit` performs a call, its dispatch mode is the
emit-time `threaded` argument when that argument is set, and the Signal's
configured default `threaded` value when it is unset. -/
theorem C7_dispatch_mode {α β : Type} (s : Signal α β) (t : Option Bool)
    (A : List β) (K : List (String × β)) (inv : Invocation α β)
    (h : (s.emit t A K).2 = Except.ok (some inv)) :
    inv.threaded = t.getD s.threaded :=
  (Signal.emit_ok_some s t A K inv h).2.2.2.2.1

/-- Claim C7 witness: a Signal configured with `threaded = False` emits
with `threaded = True`: the performed call is threaded (the argument wins);
`(some true).getD ...` is that override. -/
theorem C7_witness :
    (((((Signal.init "Signal" false false : Signal String Int).connect
        ⟨"c", true, true⟩ [] []).1).emit (some true) [] []).2
      = Except.ok (some ⟨⟨"c", true, true⟩, [], [], true, false⟩))
    ∧ (⟨⟨"c", true, true⟩, [], [], true, false⟩ : Invocation String Int).threaded
      = (some true).getD
          (((Signal.init "Signal" false false : Signal String Int).connect
            ⟨"c", true, true⟩ [] []).1).threaded :=
  ⟨rfl, C7_dispatch_mode _ (some true) [] []
    ⟨⟨"c", true, true⟩, [], [], true, false⟩ rfl⟩

/-- Claim C8, counterexample to totality: `connect` stores the binding and
then evaluates `callback.__name__` in its log f-string (line 71), which
raises `AttributeError` for an invocable without `__name__` (such as a
`functools` partial object) — so connect does raise on part of its domain. -/
theorem C8_counterexample :
    (((Signal.init "Signal" false false : Signal String Int).connect
        ⟨"unnamed_cb8", true, false⟩ [] []).2
      = some (PyError.attributeError "has no attribute __name__"))
    ∧ (((Signal.init "Signal" false false : Signal String Int).connect
        ⟨"unnamed_cb8", true, false⟩ [] []).1._callback
      = some ⟨"unnamed_cb8", true, false⟩) :=
  ⟨rfl, rfl⟩

/-- Claim C8 (amended): `connect` always stores the binding — callback,
args and kwargs, with the configuration fields untouched — and it returns
normally, raising nothing, for every callback that has a `__name__`
attribute (as every plain Python function does); a callback lacking
`__name__` still has its binding stored, but the log line then raises
`AttributeError`. -/
theorem C8_connect_total {α β : Type} (s : Signal α β) (c : PyCallable α)
    (a : List β) (k : List (String × β)) :
    (s.connect c a k).1._callback = some c
    ∧ (s.connect c a k).1.cb_args = a
    ∧ (s.connect c a k).1.cb_kwargs = k
    ∧ (s.connect c a k).1.name = s.name
    ∧ (s.connect c a k).1.threaded = s.threaded
    ∧ (s.connect c a k).1.daemon = s.daemon
    ∧ (c.hasName = true → (s.connect c a k).2 = none) := by
  have hfst := Signal.connect_fst s c a k
  refine ⟨by rw [hfst], by rw [hfst], by rw [hfst], by rw [hfst],
          by rw [hfst], by rw [hfst], fun hn => ?_⟩
  simp [Signal.connect, hn]

/-- Claim C8 witness: connecting a plain named callback stores the binding
and raises nothing. -/
theorem C8_witness :
    ((Signal.init "Signal" false false : Signal String Int).connect
        ⟨"cb8", true, true⟩ [4] [("x", 9)]).1._callback = some ⟨"cb8", true, true⟩
    ∧ ((Signal.init "Signal" false false : Signal String Int).connect
        ⟨"cb8", true, true⟩ [4] [("x", 9)]).1.cb_args = [4]
    ∧ ((Signal.init "Signal" false false : Signal String Int).connect
        ⟨"cb8", true, true⟩ [4] [("x", 9)]).1.cb_kwargs = [("x", 9)]
    ∧ ((Signal.init "Signal" false false : Signal String Int).connect
        ⟨"cb8", true, true⟩ [4] [("x", 9)]).1.name
      = (Signal.init "Signal" false false : Signal String Int).name
    ∧ ((Signal.init "Signal" false false : Signal String Int).connect
        ⟨"cb8", true, true⟩ [4] [("x", 9)]).1.threaded
      = (Signal.init "Signal" false false : Signal String Int).threaded
    ∧ ((Signal.init "Signal" false false : Signal String Int).connect
        ⟨"cb8", true, true⟩ [4] [("x", 9)]).1.daemon
      = (Signal.init "Signal" false false : Signal String Int).daemon
    ∧ ((⟨"cb8", true, true⟩ : PyCallable String).hasName = true →
        ((Signal.init "Signal" false false : Signal String Int).connect
          ⟨"cb8", true, true⟩ [4] [("x", 9)]).2 = none) :=
  C8_connect_total _ ⟨"cb8", true, true⟩ [4] [("x", 9)]

/-- Claim C9: `emit` guards on the truthiness of the stored callback, not
its mere presence: a connected callback whose `bool(...)` is `False` is
never invoked (the guarded body, including line 107, is never reached),
and `emit` behaves exactly as in the no-callback case. -/
theorem C9_emit_truthiness_guard {α β : Type} (s : Signal α β)
    (c : PyCallable α) (t : Option Bool) (A : List β)
    (K : List (String × β)) (hc : s._callback = some c)
    (ht : c.truthy = false) : s.emit t A K = (s, Except.ok none) := by
  simp [Signal.emit, hc, ht]

/-- Claim C9 witness: a Signal connected to a falsy invocable is in the
Connected state, yet a concrete emit performs no call and changes nothing. -/
theorem C9_witness :
    ((((Signal.init "Signal" false false : Signal String Int).connect
        ⟨"falsy", false, true⟩ [1] [("x", 1)]).1._callback
      = some ⟨"falsy", false, true⟩))
    ∧ (PyCallable.truthy (⟨"falsy", false, true⟩ : PyCallable String) = false)
    ∧ (((Signal.init "Signal" false false : Signal String Int).connect
        ⟨"falsy", false, true⟩ [1] [("x", 1)]).1).emit none [2] [("y", 2)]
      = (((Signal.init "Signal" false false : Signal String Int).connect
          ⟨"falsy", false, true⟩ [1] [("x", 1)]).1, Except.ok none) :=
  ⟨rfl, rfl,
    C9_emit_truthiness_guard _ ⟨"falsy", false, true⟩ none [2] [("y", 2)] rfl rfl⟩

/-- Claim C10: in every reachable Signal state — after construction and any
sequence of connect, disconnect and emit calls, the post-states of raising
calls included — if no callback is stored then the bound args are the empty
tuple and the bound kwargs the empty dict. -/
theorem C10_empty_binding_invariant {α β : Type} [DecidableEq α]
    (s : Signal α β) (hr : Signal.Reachable s) :
    s._callback = none → s.cb_args = [] ∧ s.cb_kwargs = [] := by
  induction hr with
  | init name threaded daemon => intro _; exact ⟨rfl, rfl⟩
  | connect c a k hprev ih =>
      intro h
      rw [Signal.connect_fst] at h
      exact absurd h (by simp)
  | disconnect c ig hprev ih =>
      unfold Signal.disconnect
      split
      · split
        · split
          · exact ih
          · exact ih
        · split
          · exact ih
          · exact ih
      · split
        · exact fun _ => ⟨rfl, rfl⟩
        · exact ih
  | emit t a k hprev ih =>
      rw [Signal.emit_fst]
      exact ih

/-- Claim C10 witness: the state reached by connecting a callback with
bound arguments and then disconnecting it stores no callback, and indeed
its bound args and kwargs are empty. -/
theorem C10_witness :
    ((((Signal.init "Signal" false false : Signal String Int).connect
        ⟨"c", true, true⟩ [1, 2] [("x", 1)]).1.disconnect
        ⟨"c", true, true⟩ false).1.cb_args = [])
    ∧ ((((Signal.init "Signal" false false : Signal String Int).connect
        ⟨"c", true, true⟩ [1, 2] [("x", 1)]).1.disconnect
        ⟨"c", true, true⟩ false).1.cb_kwargs = []) :=
  C10_empty_binding_invariant _
    (Signal.Reachable.disconnect ⟨"c", true, true⟩ false
      (Signal.Reachable.connect ⟨"c", true, true⟩ [1, 2] [("x", 1)]
        (Signal.Reachable.init "Signal" false false)))
    rfl
